import Mathlib

/-!
Shallow embedding of the nnou result library: the Result constructors of
src/result.ts, the predicate and assertion helpers of the assert module,
and the resolve, resolveAsync and handleError functions of src/resolve.ts.

Dynamic JavaScript values are modelled by the inductive JSVal. Plain
objects and Error instances carry an allocation tag so that JS strict
equality on objects (reference identity) is expressible. Evaluating a
call either returns a value or throws one; this is the Outcome type. The
optional handler argument of the resolve adapters is modelled by Handler:
the value undefined (argument not provided), an arbitrary non-callable
runtime value, or a callable one-argument function that may itself throw.
-/

namespace Nnou

/-- A dynamic JavaScript value. Objects carry their field list together
with an allocation tag; two objects are strictly equal exactly when their
tags agree. Error instances are modelled with their message and their own
allocation tag. -/
inductive JSVal where
  | undef
  | null
  | bool (b : Bool)
  | num (n : Int)
  | str (s : String)
  | obj (fields : List (String × JSVal)) (oid : Nat)
  | errObj (message : String) (oid : Nat)

/-- The result of evaluating a JavaScript expression or call: a normal
return value or a thrown value. -/
inductive Outcome where
  | ret (v : JSVal)
  | thrown (v : JSVal)

/-- The runtime shape of the optional handler argument of resolve,
resolveAsync and handleError: the value undefined (argument not
provided), an arbitrary non-callable runtime value, or a callable
one-argument function, which may itself throw. -/
inductive Handler where
  | undef
  | val (v : JSVal)
  | func (f : JSVal → Outcome)

/-- First-match lookup in an object field list. -/
def lookupField : List (String × JSVal) → String → Option JSVal
  | [], _ => none
  | p :: rest, k => if p.1 == k then some p.2 else lookupField rest k

/-- The JavaScript typeof operator on the modelled values. -/
def jsTypeof : JSVal → String
  | .undef => "undefined"
  | .null => "object"
  | .bool _ => "boolean"
  | .num _ => "number"
  | .str _ => "string"
  | .obj _ _ => "object"
  | .errObj _ _ => "object"

/-- The JavaScript in operator: whether the value has the named field.
Error instances expose their message field. -/
def hasField (v : JSVal) (k : String) : Bool :=
  match v with
  | .obj fs _ => (lookupField fs k).isSome
  | .errObj _ _ => k == "message"
  | _ => false

/-- JavaScript member access on the modelled values: the field when
present, undefined otherwise. -/
def jsGet (v : JSVal) (k : String) : JSVal :=
  match v with
  | .obj fs _ => (lookupField fs k).getD JSVal.undef
  | .errObj m _ => if k == "message" then JSVal.str m else JSVal.undef
  | _ => JSVal.undef

/-- JavaScript strict equality on the modelled values: primitives by
value, objects and Error instances by allocation tag, that is by
reference identity. -/
def jsStrictEq : JSVal → JSVal → Bool
  | .undef, .undef => true
  | .null, .null => true
  | .bool a, .bool b => a == b
  | .num a, .num b => a == b
  | .str a, .str b => a == b
  | .obj _ i, .obj _ j => i == j
  | .errObj _ i, .errObj _ j => i == j
  | _, _ => false

/-- JavaScript truthiness of a value. -/
def jsTruthy : JSVal → Bool
  | .undef => false
  | .null => false
  | .bool b => b
  | .num n => n != 0
  | .str s => s != ""
  | .obj _ _ => true
  | .errObj _ _ => true

/-- The test whether a value is an instance of Error. -/
def instanceofError : JSVal → Bool
  | .errObj _ _ => true
  | _ => false

/-- String conversion of a value as performed by a template literal. -/
def jsToString : JSVal → String
  | .undef => "undefined"
  | .null => "null"
  | .bool b => if b then "true" else "false"
  | .num n => toString n
  | .str s => s
  | .obj _ _ => "[object Object]"
  | .errObj m _ => "Error: " ++ m

/-- The constructor ok of src/result.ts: returns the object literal with
the ok field true and the given value. The allocation tag of the literal
plays no role in any property below and is fixed to 0. -/
def ok (value : JSVal) : JSVal :=
  JSVal.obj [("ok", JSVal.bool true), ("value", value)] 0

/-- The constructor err of src/result.ts: returns the object literal with
the ok field false and the given error. -/
def err (error : JSVal) : JSVal :=
  JSVal.obj [("ok", JSVal.bool false), ("error", error)] 0

/-- The predicate isResult of the assert module: typeof value is object,
value is not null, it has an ok field of boolean type, and the payload
field matching the ok flag is present. -/
def isResult (value : JSVal) : Bool :=
  (jsTypeof value == "object" &&
    !(jsStrictEq value JSVal.null) &&
    hasField value "ok" &&
    jsTypeof (jsGet value "ok") == "boolean")
  &&
  ((jsTruthy (jsGet value "ok") && hasField value "value") ||
    (!(jsTruthy (jsGet value "ok")) && hasField value "error"))

/-- assertResultOk from the assert module: throws when the ok field is
falsy, otherwise returns undefined. -/
def assertResultOk (result : JSVal) : Outcome :=
  if !(jsTruthy (jsGet result "ok")) then
    Outcome.thrown (JSVal.errObj "Expected a successful result" 0)
  else
    Outcome.ret JSVal.undef

/-- assertResultErr from the assert module: throws when the ok field is
truthy, otherwise returns undefined. -/
def assertResultErr (result : JSVal) : Outcome :=
  if jsTruthy (jsGet result "ok") then
    Outcome.thrown (JSVal.errObj "Expected a failed result" 0)
  else
    Outcome.ret JSVal.undef

/-- assertResultOkEqual from the assert module: first assertResultOk, whose
thrown error propagates; then throws unless the value field is strictly
equal to the expected value. -/
def assertResultOkEqual (result value : JSVal) : Outcome :=
  match assertResultOk result with
  | Outcome.thrown ex => Outcome.thrown ex
  | Outcome.ret _ =>
    if !(jsStrictEq (jsGet result "value") value) then
      Outcome.thrown
        (JSVal.errObj ("Expected the value to be " ++ jsToString value) 0)
    else
      Outcome.ret JSVal.undef

/-- assertResultErrEqual from the assert module: first assertResultErr,
whose thrown error propagates; then throws unless the error field is
strictly equal to the expected error. -/
def assertResultErrEqual (result error : JSVal) : Outcome :=
  match assertResultErr result with
  | Outcome.thrown ex => Outcome.thrown ex
  | Outcome.ret _ =>
    if !(jsStrictEq (jsGet result "error") error) then
      Outcome.thrown
        (JSVal.errObj ("Expected the error to be " ++ jsToString error) 0)
    else
      Outcome.ret JSVal.undef

/-- typeof applied to the handler argument. -/
def handlerTypeof : Handler → String
  | .undef => "undefined"
  | .val v => jsTypeof v
  | .func _ => "function"

/-- JavaScript strict equality between the string produced by typeof and
the value null: a string is never strictly equal to null, so this is
false for every string. It embeds the second disjunct of the first guard
of handleError, which compares typeof handler against null. -/
def stringStrictEqNull (_ : String) : Bool := false

/-- The test whether the handler is an instance of Function. -/
def handlerIsFunction : Handler → Bool
  | .func _ => true
  | _ => false

/-- Calling the handler. Calling a non-function throws a TypeError; in
handleError the call is guarded by handlerIsFunction, so that branch is
unreachable there. -/
def handlerApply : Handler → JSVal → Outcome
  | .func f, e => f e
  | _, _ => Outcome.thrown (JSVal.errObj "handler is not a function" 0)

/-- The handler argument seen as a plain runtime value; a callable has no
first-order representation here, and in handleError this is consulted
only on the non-callable branch. -/
def handlerValue : Handler → JSVal
  | .undef => JSVal.undef
  | .val v => v
  | .func _ => JSVal.undef

/-- The local errMessage computation of handleError in src/resolve.ts:
when typeof error is string, error itself; else when error is an instance
of Error, its message field; else the fixed generic string. -/
def errMessage (error : JSVal) : JSVal :=
  if jsTypeof error == "string" then error
  else if instanceofError error then jsGet error "message"
  else JSVal.str "An error occurred"

/-- handleError from src/resolve.ts. The first guard is
typeof handler compared against the string undefined, or typeof handler
compared against null under strict equality; then the instance-of-Function
test selects the delegation branch; otherwise the handler value itself
becomes the error. A throw from the handler call is not caught. -/
def handleError (error : JSVal) (handler : Handler) : Outcome :=
  if handlerTypeof handler == "undefined" ||
      stringStrictEqNull (handlerTypeof handler) then
    Outcome.ret (err (errMessage error))
  else if handlerIsFunction handler then
    match handlerApply handler error with
    | Outcome.ret e => Outcome.ret (if isResult e then e else err e)
    | Outcome.thrown ex => Outcome.thrown ex
  else
    Outcome.ret (err (handlerValue handler))

/-- resolve from src/resolve.ts: call fn inside a protected scope and
return its value; on a throw, delegate to handleError. -/
def resolve (fn : Unit → Outcome) (handler : Handler) : Outcome :=
  match fn () with
  | Outcome.ret v => Outcome.ret v
  | Outcome.thrown error => handleError error handler

/-- resolveAsync from src/resolve.ts: await fn inside a protected scope
and return the settled value; a rejection is caught and delegated to
handleError. With the single await point modelled as the one evaluation
of fn, the body coincides with that of resolve. -/
def resolveAsync (fn : Unit → Outcome) (handler : Handler) : Outcome :=
  match fn () with
  | Outcome.ret v => Outcome.ret v
  | Outcome.thrown error => handleError error handler

theorem isResult_of_ok (v : JSVal) : isResult (ok v) = true := rfl

theorem isResult_of_err (v : JSVal) : isResult (err v) = true := rfl

/-- C10: the constructors are total and perform no runtime non-absence
check: for every value, including null and undefined, ok returns the
plain object with ok true and that value, and err returns the plain
object with ok false and that error; the payload field holds the given
value unchanged. -/
theorem ok_err_total (v : JSVal) :
    ok v = JSVal.obj [("ok", JSVal.bool true), ("value", v)] 0 ∧
    err v = JSVal.obj [("ok", JSVal.bool false), ("error", v)] 0 ∧
    jsGet (ok v) "value" = v ∧
    jsGet (err v) "error" = v ∧
    jsGet (ok JSVal.null) "value" = JSVal.null ∧
    jsGet (ok JSVal.undef) "value" = JSVal.undef ∧
    jsGet (err JSVal.null) "error" = JSVal.null ∧
    jsGet (err JSVal.undef) "error" = JSVal.undef :=
  ⟨rfl, rfl, rfl, rfl, rfl, rfl, rfl, rfl⟩

/-- C3: a handler that is present but not callable is substituted, by
identity, as the error of the returned failure Result, and the caught
error has no influence on the output. -/
theorem handleError_defaultValue (e v : JSVal) (hv : jsTypeof v ≠ "undefined") :
    handleError e (Handler.val v) = Outcome.ret (err v) ∧
    (∀ e2 : JSVal, handleError e (Handler.val v) = handleError e2 (Handler.val v)) := by
  cases v with
  | undef => exact absurd rfl hv
  | null => exact ⟨rfl, fun _ => rfl⟩
  | bool b => exact ⟨rfl, fun _ => rfl⟩
  | num n => exact ⟨rfl, fun _ => rfl⟩
  | str s => exact ⟨rfl, fun _ => rfl⟩
  | obj fs i => exact ⟨rfl, fun _ => rfl⟩
  | errObj m i => exact ⟨rfl, fun _ => rfl⟩

theorem handleError_defaultValue_witness :
    handleError (JSVal.errObj "boom" 0)
        (Handler.val (JSVal.obj [("code", JSVal.str "E")] 0))
      = Outcome.ret (err (JSVal.obj [("code", JSVal.str "E")] 0)) :=
  (handleError_defaultValue (JSVal.errObj "boom" 0)
      (JSVal.obj [("code", JSVal.str "E")] 0) (by decide)).1

/-- C9: when the handler argument is the value null, the absent-handler
branch is not taken, because typeof produces a string and a string is
never strictly equal to null; instead the returned value is a failure
Result whose error payload is null. This lifts to resolve and
resolveAsync on a raising operation. -/
theorem handleError_nullHandler (e : JSVal) :
    (∀ s : String, stringStrictEqNull s = false) ∧
    handlerTypeof (Handler.val JSVal.null) ≠ "undefined" ∧
    handleError e (Handler.val JSVal.null) = Outcome.ret (err JSVal.null) ∧
    (∀ fn : Unit → Outcome, fn () = Outcome.thrown e →
      resolve fn (Handler.val JSVal.null) = Outcome.ret (err JSVal.null) ∧
      resolveAsync fn (Handler.val JSVal.null) = Outcome.ret (err JSVal.null)) := by
  refine ⟨fun _ => rfl, by decide, rfl, fun fn hfn => ?_⟩
  constructor
  · show (match fn () with
      | Outcome.ret v => Outcome.ret v
      | Outcome.thrown error => handleError error (Handler.val JSVal.null)) = _
    rw [hfn]
    rfl
  · show (match fn () with
      | Outcome.ret v => Outcome.ret v
      | Outcome.thrown error => handleError error (Handler.val JSVal.null)) = _
    rw [hfn]
    rfl

theorem handleError_nullHandler_witness :
    resolve (fun _ => Outcome.thrown (JSVal.str "boom")) (Handler.val JSVal.null)
      = Outcome.ret (err JSVal.null) :=
  ((handleError_nullHandler (JSVal.str "boom")).2.2.2
      (fun _ => Outcome.thrown (JSVal.str "boom")) rfl).1

/-- C4: when the operation returns normally, resolve and resolveAsync
return its Result unchanged, whatever the handler, including when that
Result is a failure variant; and the output depends only on the single
evaluation of the operation. -/
theorem resolve_passthrough (fn : Unit → Outcome) (v : JSVal) (h : Handler)
    (hfn : fn () = Outcome.ret v) :
    resolve fn h = Outcome.ret v ∧
    resolveAsync fn h = Outcome.ret v ∧
    (∀ g : Unit → Outcome, g () = fn () → resolve g h = resolve fn h) := by
  refine ⟨?_, ?_, fun g hg => ?_⟩
  · rw [resolve, hfn]
  · rw [resolveAsync, hfn]
  · rw [resolve, resolve, hg]

theorem resolve_passthrough_witness :
    resolve (fun _ => Outcome.ret (err (JSVal.str "x"))) (Handler.val (JSVal.num 1))
      = Outcome.ret (err (JSVal.str "x")) :=
  (resolve_passthrough (fun _ => Outcome.ret (err (JSVal.str "x")))
      (err (JSVal.str "x")) (Handler.val (JSVal.num 1)) rfl).1

/-- C6: resolveAsync settles to exactly the value resolve returns for the
corresponding synchronous operation: a future resolving to a Result,
including a declared failure Result, passes through unchanged, and a
rejection is routed through the same normalization policy with the same
handler. -/
theorem resolveAsync_mirrors_resolve (fn : Unit → Outcome) (h : Handler) :
    resolveAsync fn h = resolve fn h ∧
    (∀ v : JSVal, fn () = Outcome.ret v → resolveAsync fn h = Outcome.ret v) ∧
    (∀ e : JSVal, fn () = Outcome.thrown e → resolveAsync fn h = handleError e h) := by
  refine ⟨rfl, fun v hv => ?_, fun e he => ?_⟩
  · rw [resolveAsync, hv]
  · rw [resolveAsync, he]

theorem resolveAsync_mirrors_resolve_witness :
    resolveAsync (fun _ => Outcome.thrown (JSVal.str "boom")) Handler.undef
      = handleError (JSVal.str "boom") Handler.undef :=
  (resolveAsync_mirrors_resolve (fun _ => Outcome.thrown (JSVal.str "boom"))
      Handler.undef).2.2 (JSVal.str "boom") rfl

/-- C1 amended: when resolve or resolveAsync catches a failure value with
no handler provided, the returned value is a failure Result whose error
is the fallback message: the string itself verbatim when the caught value
is a string; the message field when the caught value is an instance of
Error; and the fixed string otherwise, including for a plain object that
merely exposes a message attribute without being an Error instance. -/
theorem resolve_noHandler_fallback (fn : Unit → Outcome) (e : JSVal)
    (hfn : fn () = Outcome.thrown e) :
    (∀ s : String, e = JSVal.str s →
      resolve fn Handler.undef = Outcome.ret (err (JSVal.str s)) ∧
      resolveAsync fn Handler.undef = Outcome.ret (err (JSVal.str s))) ∧
    (∀ (m : String) (i : Nat), e = JSVal.errObj m i →
      resolve fn Handler.undef = Outcome.ret (err (JSVal.str m)) ∧
      resolveAsync fn Handler.undef = Outcome.ret (err (JSVal.str m))) ∧
    (jsTypeof e ≠ "string" → instanceofError e = false →
      resolve fn Handler.undef
        = Outcome.ret (err (JSVal.str "An error occurred")) ∧
      resolveAsync fn Handler.undef
        = Outcome.ret (err (JSVal.str "An error occurred"))) := by
  have hres : resolve fn Handler.undef = handleError e Handler.undef := by
    rw [resolve, hfn]
  have hresa : resolveAsync fn Handler.undef = handleError e Handler.undef := by
    rw [resolveAsync, hfn]
  refine ⟨fun s hs => ?_, fun m i hm => ?_, fun hstr herr => ?_⟩
  · subst hs; exact ⟨hres, hresa⟩
  · subst hm; exact ⟨hres, hresa⟩
  · have hmsg : errMessage e = JSVal.str "An error occurred" := by
      cases e with
      | str s => exact absurd rfl hstr
      | errObj m i => simp [instanceofError] at herr
      | undef => rfl
      | null => rfl
      | bool b => rfl
      | num n => rfl
      | obj fs i => rfl
    have hhe : handleError e Handler.undef
        = Outcome.ret (err (errMessage e)) := rfl
    rw [hres, hresa, hhe, hmsg]
    exact ⟨rfl, rfl⟩

theorem resolve_noHandler_fallback_witness :
    resolve (fun _ => Outcome.thrown (JSVal.errObj "boom" 0)) Handler.undef
      = Outcome.ret (err (JSVal.str "boom")) :=
  ((resolve_noHandler_fallback (fun _ => Outcome.thrown (JSVal.errObj "boom" 0))
      (JSVal.errObj "boom" 0) rfl).2.1 "boom" 0 rfl).1

/-- C1 counterexample: a plain object that exposes a message attribute is
caught with no handler; the code returns the fixed generic string as the
error, not that message attribute, because the object is not an instance
of Error. -/
theorem resolve_noHandler_messageObject_cex :
    hasField (JSVal.obj [("message", JSVal.str "boom")] 0) "message" = true ∧
    jsGet (JSVal.obj [("message", JSVal.str "boom")] 0) "message"
      = JSVal.str "boom" ∧
    resolve (fun _ => Outcome.thrown (JSVal.obj [("message", JSVal.str "boom")] 0))
        Handler.undef
      = Outcome.ret (err (JSVal.str "An error occurred")) ∧
    Outcome.ret (err (JSVal.str "An error occurred"))
      ≠ Outcome.ret (err (JSVal.str "boom")) := by
  refine ⟨rfl, rfl, rfl, ?_⟩
  intro hcontra
  simp [err] at hcontra

/-- C2: when the handler is callable, the policy applies it to the caught
value and depends only on that one application: a returned Result passes
through unchanged, and this delegation branch is the only one whose
output can be a success Result; any other returned value is wrapped as
the error of a failure Result. -/
theorem handleError_callable (e : JSVal) :
    (∀ (f : JSVal → Outcome) (r : JSVal), f e = Outcome.ret r →
      handleError e (Handler.func f)
        = Outcome.ret (if isResult r then r else err r)) ∧
    (∀ (f : JSVal → Outcome) (r : JSVal), f e = Outcome.ret r →
      isResult r = true → handleError e (Handler.func f) = Outcome.ret r) ∧
    (∀ f g : JSVal → Outcome, f e = g e →
      handleError e (Handler.func f) = handleError e (Handler.func g)) ∧
    (∀ (h : Handler) (r : JSVal), handleError e h = Outcome.ret r →
      jsGet r "ok" = JSVal.bool true →
      ∃ f : JSVal → Outcome, h = Handler.func f ∧ f e = Outcome.ret r) := by
  have hfunc : ∀ f : JSVal → Outcome,
      handleError e (Handler.func f)
        = match f e with
          | Outcome.ret r => Outcome.ret (if isResult r then r else err r)
          | Outcome.thrown ex => Outcome.thrown ex := fun f => rfl
  refine ⟨fun f r hf => ?_, fun f r hf hr => ?_, fun f g hfg => ?_,
    fun h r hret hok => ?_⟩
  · rw [hfunc, hf]
  · rw [hfunc, hf]; simp [hr]
  · rw [hfunc, hfunc, hfg]
  · cases h with
    | undef =>
      have : Outcome.ret (err (errMessage e)) = Outcome.ret r := hret
      have hr : r = err (errMessage e) := (Outcome.ret.inj this).symm
      subst hr
      simp [err, jsGet, lookupField] at hok
    | val v =>
      cases v with
      | undef =>
        have : Outcome.ret (err (errMessage e)) = Outcome.ret r := hret
        have hr : r = err (errMessage e) := (Outcome.ret.inj this).symm
        subst hr
        simp [err, jsGet, lookupField] at hok
      | null =>
        have hr : r = err JSVal.null := (Outcome.ret.inj hret).symm
        subst hr
        simp [err, jsGet, lookupField] at hok
      | bool b =>
        have hr : r = err (JSVal.bool b) := (Outcome.ret.inj hret).symm
        subst hr
        simp [err, jsGet, lookupField] at hok
      | num n =>
        have hr : r = err (JSVal.num n) := (Outcome.ret.inj hret).symm
        subst hr
        simp [err, jsGet, lookupField] at hok
      | str s =>
        have hr : r = err (JSVal.str s) := (Outcome.ret.inj hret).symm
        subst hr
        simp [err, jsGet, lookupField] at hok
      | obj fs i =>
        have hr : r = err (JSVal.obj fs i) := (Outcome.ret.inj hret).symm
        subst hr
        simp [err, jsGet, lookupField] at hok
      | errObj m i =>
        have hr : r = err (JSVal.errObj m i) := (Outcome.ret.inj hret).symm
        subst hr
        simp [err, jsGet, lookupField] at hok
    | func f =>
      rw [hfunc] at hret
      cases hfe : f e with
      | thrown ex => rw [hfe] at hret; exact absurd hret (by simp)
      | ret r2 =>
        rw [hfe] at hret
        have hr : r = if isResult r2 then r2 else err r2 :=
          (Outcome.ret.inj hret).symm
        by_cases hir : isResult r2 = true
        · refine ⟨f, rfl, ?_⟩
          rw [hfe]
          rw [hr, if_pos hir]
        · rw [if_neg hir] at hr
          subst hr
          simp [err, jsGet, lookupField] at hok

theorem handleError_callable_witness :
    handleError (JSVal.str "x") (Handler.func (fun _ => Outcome.ret (ok (JSVal.num 1))))
      = Outcome.ret (ok (JSVal.num 1)) :=
  (handleError_callable (JSVal.str "x")).2.1
    (fun _ => Outcome.ret (ok (JSVal.num 1))) (ok (JSVal.num 1)) rfl rfl

/-- C5: a failure raised by the operation never propagates out of resolve
or resolveAsync — the caller always receives a Result value — except that
when a callable handler itself raises during its invocation, that new
raised failure propagates out of the adapter uncaught. -/
theorem resolve_containment (fn : Unit → Outcome) (e : JSVal)
    (hfn : fn () = Outcome.thrown e) :
    (∀ h : Handler,
      (∀ f : JSVal → Outcome, h = Handler.func f → ∃ r, f e = Outcome.ret r) →
      ∃ r : JSVal, resolve fn h = Outcome.ret r ∧ isResult r = true ∧
        resolveAsync fn h = Outcome.ret r) ∧
    (∀ (f : JSVal → Outcome) (ex : JSVal), f e = Outcome.thrown ex →
      resolve fn (Handler.func f) = Outcome.thrown ex ∧
      resolveAsync fn (Handler.func f) = Outcome.thrown ex) := by
  have hres : ∀ h : Handler, resolve fn h = handleError e h := by
    intro h; rw [resolve, hfn]
  have hresa : ∀ h : Handler, resolveAsync fn h = handleError e h := by
    intro h; rw [resolveAsync, hfn]
  have hfunc : ∀ f : JSVal → Outcome,
      handleError e (Handler.func f)
        = match f e with
          | Outcome.ret r => Outcome.ret (if isResult r then r else err r)
          | Outcome.thrown ex => Outcome.thrown ex := fun f => rfl
  refine ⟨fun h hnothrow => ?_, fun f ex hf => ?_⟩
  · rw [hres h, hresa h]
    cases h with
    | undef => exact ⟨err (errMessage e), rfl, isResult_of_err _, rfl⟩
    | val v =>
      cases v with
      | undef => exact ⟨err (errMessage e), rfl, isResult_of_err _, rfl⟩
      | null => exact ⟨err JSVal.null, rfl, isResult_of_err _, rfl⟩
      | bool b => exact ⟨err (JSVal.bool b), rfl, isResult_of_err _, rfl⟩
      | num n => exact ⟨err (JSVal.num n), rfl, isResult_of_err _, rfl⟩
      | str s => exact ⟨err (JSVal.str s), rfl, isResult_of_err _, rfl⟩
      | obj fs i => exact ⟨err (JSVal.obj fs i), rfl, isResult_of_err _, rfl⟩
      | errObj m i => exact ⟨err (JSVal.errObj m i), rfl, isResult_of_err _, rfl⟩
    | func f =>
      obtain ⟨r, hr⟩ := hnothrow f rfl
      refine ⟨if isResult r then r else err r, ?_, ?_, ?_⟩
      · rw [hfunc f, hr]
      · by_cases hir : isResult r = true
        · rw [if_pos hir]; exact hir
        · rw [if_neg hir]; exact isResult_of_err r
      · rw [hfunc f, hr]
  · constructor
    · rw [hres _, hfunc f, hf]
    · rw [hresa _, hfunc f, hf]

theorem resolve_containment_witness :
    (∃ r : JSVal,
      resolve (fun _ => Outcome.thrown (JSVal.str "boom")) Handler.undef
        = Outcome.ret r ∧ isResult r = true ∧
      resolveAsync (fun _ => Outcome.thrown (JSVal.str "boom")) Handler.undef
        = Outcome.ret r) ∧
    resolve (fun _ => Outcome.thrown (JSVal.str "boom"))
        (Handler.func (fun _ => Outcome.thrown (JSVal.num 7)))
      = Outcome.thrown (JSVal.num 7) :=
  ⟨(resolve_containment (fun _ => Outcome.thrown (JSVal.str "boom"))
      (JSVal.str "boom") rfl).1 Handler.undef
      (fun _ hf => Handler.noConfusion hf),
   ((resolve_containment (fun _ => Outcome.thrown (JSVal.str "boom"))
      (JSVal.str "boom") rfl).2 (fun _ => Outcome.thrown (JSVal.num 7))
      (JSVal.num 7) rfl).1⟩

/-- C7: isResult holds exactly of a non-null object with a boolean ok
field whose matching payload field is present: the value field when ok is
true, the error field when ok is false. It holds of every ok and err
output and of a tag-true object carrying both payload fields; it fails on
null, undefined, non-objects, a non-boolean tag, tag true without a value
field, and tag false without an error field. -/
theorem isResult_characterization :
    (∀ v : JSVal, isResult v = true ↔
      ((jsTypeof v = "object" ∧ v ≠ JSVal.null ∧
          jsGet v "ok" = JSVal.bool true ∧ hasField v "value" = true) ∨
       (jsTypeof v = "object" ∧ v ≠ JSVal.null ∧
          jsGet v "ok" = JSVal.bool false ∧ hasField v "error" = true))) ∧
    (∀ v : JSVal, isResult (ok v) = true) ∧
    (∀ v : JSVal, isResult (err v) = true) ∧
    (∀ (a b : JSVal) (i : Nat),
      isResult
        (JSVal.obj [("ok", JSVal.bool true), ("value", a), ("error", b)] i)
        = true) ∧
    isResult JSVal.null = false ∧
    isResult JSVal.undef = false ∧
    isResult (JSVal.num 3) = false ∧
    isResult (JSVal.str "ok") = false ∧
    (∀ i : Nat, isResult (JSVal.obj [("ok", JSVal.str "potato")] i) = false) ∧
    (∀ (a : JSVal) (i : Nat),
      isResult (JSVal.obj [("ok", JSVal.bool true), ("error", a)] i) = false) ∧
    (∀ (a : JSVal) (i : Nat),
      isResult (JSVal.obj [("ok", JSVal.bool false), ("value", a)] i) = false) := by
  refine ⟨fun v => ?_, fun v => isResult_of_ok v, fun v => isResult_of_err v,
    fun a b i => rfl, rfl, rfl, rfl, rfl, fun i => rfl, fun a i => rfl,
    fun a i => rfl⟩
  cases v with
  | undef => simp [isResult, jsTypeof, jsStrictEq, hasField, jsGet, jsTruthy]
  | null => simp [isResult, jsTypeof, jsStrictEq, hasField, jsGet, jsTruthy]
  | bool b => simp [isResult, jsTypeof, jsStrictEq, hasField, jsGet, jsTruthy]
  | num n => simp [isResult, jsTypeof, jsStrictEq, hasField, jsGet, jsTruthy]
  | str s => simp [isResult, jsTypeof, jsStrictEq, hasField, jsGet, jsTruthy]
  | errObj m i =>
    simp [isResult, jsTypeof, jsStrictEq, hasField, jsGet, jsTruthy]
  | obj fs i =>
    cases hl : lookupField fs "ok" with
    | none =>
      simp [isResult, jsTypeof, jsStrictEq, hasField, jsGet, jsTruthy, hl]
    | some w =>
      cases w with
      | undef =>
        simp [isResult, jsTypeof, jsStrictEq, hasField, jsGet, jsTruthy, hl]
      | null =>
        simp [isResult, jsTypeof, jsStrictEq, hasField, jsGet, jsTruthy, hl]
      | bool b =>
        cases b <;>
          simp [isResult, jsTypeof, jsStrictEq, hasField, jsGet, jsTruthy, hl]
      | num n =>
        simp [isResult, jsTypeof, jsStrictEq, hasField, jsGet, jsTruthy, hl]
      | str s =>
        simp [isResult, jsTypeof, jsStrictEq, hasField, jsGet, jsTruthy, hl]
      | obj fs2 j =>
        simp [isResult, jsTypeof, jsStrictEq, hasField, jsGet, jsTruthy, hl]
      | errObj m j =>
        simp [isResult, jsTypeof, jsStrictEq, hasField, jsGet, jsTruthy, hl]

/-- C8: assertResultOkEqual first fails when the Result is a failure
variant; on a success variant it succeeds exactly when the success
payload is strictly equal to the expected value, so two distinct objects
with structurally equal contents do not pass; assertResultErrEqual is
symmetric for the failure payload. -/
theorem assertEqual_strict (r x : JSVal) :
    (jsTruthy (jsGet r "ok") = false →
      assertResultOkEqual r x
        = Outcome.thrown (JSVal.errObj "Expected a successful result" 0)) ∧
    (jsTruthy (jsGet r "ok") = true →
      (assertResultOkEqual r x = Outcome.ret JSVal.undef ↔
        jsStrictEq (jsGet r "value") x = true)) ∧
    (jsTruthy (jsGet r "ok") = true →
      jsStrictEq (jsGet r "value") x = false →
      assertResultOkEqual r x
        = Outcome.thrown
            (JSVal.errObj ("Expected the value to be " ++ jsToString x) 0)) ∧
    (jsTruthy (jsGet r "ok") = true →
      assertResultErrEqual r x
        = Outcome.thrown (JSVal.errObj "Expected a failed result" 0)) ∧
    (jsTruthy (jsGet r "ok") = false →
      (assertResultErrEqual r x = Outcome.ret JSVal.undef ↔
        jsStrictEq (jsGet r "error") x = true)) ∧
    (jsTruthy (jsGet r "ok") = false →
      jsStrictEq (jsGet r "error") x = false →
      assertResultErrEqual r x
        = Outcome.thrown
            (JSVal.errObj ("Expected the error to be " ++ jsToString x) 0)) ∧
    (∀ (fs : List (String × JSVal)) (i j : Nat), i ≠ j →
      assertResultOkEqual (ok (JSVal.obj fs i)) (JSVal.obj fs j)
        = Outcome.thrown
            (JSVal.errObj
              ("Expected the value to be " ++ jsToString (JSVal.obj fs j)) 0)) := by
  refine ⟨fun hko => ?_, fun hko => ?_, fun hko hse => ?_, fun hko => ?_,
    fun hko => ?_, fun hko hse => ?_, fun fs i j hij => ?_⟩
  · simp [assertResultOkEqual, assertResultOk, hko]
  · by_cases hse : jsStrictEq (jsGet r "value") x = true
    · simp [assertResultOkEqual, assertResultOk, hko, hse]
    · rw [Bool.not_eq_true] at hse
      simp [assertResultOkEqual, assertResultOk, hko, hse]
  · simp [assertResultOkEqual, assertResultOk, hko, hse]
  · simp [assertResultErrEqual, assertResultErr, hko]
  · by_cases hse : jsStrictEq (jsGet r "error") x = true
    · simp [assertResultErrEqual, assertResultErr, hko, hse]
    · rw [Bool.not_eq_true] at hse
      simp [assertResultErrEqual, assertResultErr, hko, hse]
  · simp [assertResultErrEqual, assertResultErr, hko, hse]
  · have hne : (i == j) = false := by
      simpa using hij
    simp [assertResultOkEqual, assertResultOk, ok, jsGet, lookupField,
      jsTruthy, jsStrictEq, hne]

theorem assertEqual_strict_witness :
    assertResultOkEqual (ok (JSVal.num 42)) (JSVal.num 42)
      = Outcome.ret JSVal.undef ∧
    assertResultErrEqual (err (JSVal.str "e")) (JSVal.str "e")
      = Outcome.ret JSVal.undef :=
  ⟨((assertEqual_strict (ok (JSVal.num 42)) (JSVal.num 42)).2.1 rfl).mpr rfl,
   ((assertEqual_strict (err (JSVal.str "e"))
      (JSVal.str "e")).2.2.2.2.1 rfl).mpr rfl⟩

end Nnou
